import Mathlib

/-!
Verification development for the Skybooker route-computation and fare-pricing
core.  The definitions below are a shallow embedding of the TypeScript source
(`src/server/services/graph.ts` and the pricing module): JavaScript numbers
are modelled as rationals, `Infinity` by an explicit constructor of an
extended-rational type, and `undefined`/`NaN` lookups by `Option` (JS
relational operators on `undefined`/`NaN` yield `false`, `undefined + x`
yields `NaN`, and `undefined === Infinity` / `NaN === Infinity` are both
`false`, so the two collapse soundly into `none` for every operation the
source performs).  Thrown `TypeError`s are modelled by `Except Unit`.
-/

/-! ## Pricing engine (src pricing module) -/

/-- `PriceConfig` from the shared schema: all monetary/rate fields. -/
structure PriceConfig where
  fuelPricePerLitre : ℚ
  defaultBurnLPerKm : ℚ
  taxRate : ℚ
  feeRate : ℚ
  baseFare : ℚ
  deriving DecidableEq

/-- `FareBreakdown` interface of the pricing module. -/
structure FareBreakdown where
  base : ℚ
  fuelCost : ℚ
  ops : ℚ
  taxes : ℚ
  demand : ℚ
  deriving DecidableEq

/-- `Offer` interface of the pricing module.  The random `offerId`
(`nanoid()`) carries no pricing information and is not modelled. -/
structure Offer where
  fareClass : String
  fareBreakdown : FareBreakdown
  totalFare : ℚ
  currency : String
  deriving DecidableEq

/-- `roundToNearest10`: `Math.round(value / 10) * 10`.  JavaScript
`Math.round x = ⌊x + 1/2⌋` (half rounds toward +∞). -/
def roundToNearest10 (value : ℚ) : ℚ :=
  ((⌊value / 10 + 1/2⌋ : ℤ) : ℚ) * 10

/-- `clamp(value, min, max) = Math.min(Math.max(value, min), max)`. -/
def clamp (value mn mx : ℚ) : ℚ :=
  min (max value mn) mx

/-- The fixed `popularRoutes` list of `calculateDemandFactor`. -/
def popularRoutes : List String :=
  ["DEL-BOM", "BOM-DEL", "DEL-BLR", "BLR-DEL"]

/-- `calculateDemandFactor`, with the `Math.random()` draw passed in as
`rand` (the source draws it from the ambient generator; it lies in `[0,1)`). -/
def calculateDemandFactor (path : List String) (rand : ℚ) : ℚ :=
  let routeKey := String.intercalate "-" path
  let baseDemand : ℚ := if routeKey ∈ popularRoutes then 12/10 else 1
  let randomFactor : ℚ := 9/10 + rand * (4/10)
  clamp (baseDemand * randomFactor) (9/10) (15/10)

/-- The pre-class price `(base + fuelCost + ops + taxes) * demand` computed
by `generatePriceQuote` (named here so theorems can refer to it). -/
def corePriceOf (path : List String) (totalDistanceKm : ℚ) (config : PriceConfig)
    (rand : ℚ) : ℚ :=
  let base := config.baseFare
  let fuelCost := totalDistanceKm * config.defaultBurnLPerKm * config.fuelPricePerLitre
  let ops := config.feeRate * (base + fuelCost)
  let taxes := config.taxRate * (base + fuelCost + ops)
  (base + fuelCost + ops + taxes) * calculateDemandFactor path rand

/-- The `fareBreakdown` value shared by the three offers of one quote. -/
def fareBreakdownOf (path : List String) (totalDistanceKm : ℚ) (config : PriceConfig)
    (rand : ℚ) : FareBreakdown :=
  let base := config.baseFare
  let fuelCost := totalDistanceKm * config.defaultBurnLPerKm * config.fuelPricePerLitre
  let ops := config.feeRate * (base + fuelCost)
  let taxes := config.taxRate * (base + fuelCost + ops)
  ⟨base, fuelCost, ops, taxes, calculateDemandFactor path rand⟩

/-- The `classes` array of `generatePriceQuote`: name and multiplier. -/
def fareClasses : List (String × ℚ) :=
  [("Saver", 95/100), ("Standard", 1), ("Flex", 115/100)]

/-- `generatePriceQuote(path, totalDistanceKm, pax, config)`, with the demand
random draw passed in as `rand`. -/
def generatePriceQuote (path : List String) (totalDistanceKm : ℚ) (pax : ℚ)
    (config : PriceConfig) (rand : ℚ) : List Offer :=
  let fb := fareBreakdownOf path totalDistanceKm config rand
  let corePrice := corePriceOf path totalDistanceKm config rand
  fareClasses.map (fun fareClass =>
    ⟨fareClass.1, fb, roundToNearest10 (corePrice * fareClass.2) * pax, "INR"⟩)

/-! ## JavaScript number shim

The graph algorithms store JS numbers (finite floats or `Infinity`) in `Map`s
whose `get` can also yield `undefined`; arithmetic on `undefined` yields
`NaN`.  `XRat` models a definitely-present number; `Option XRat` models a map
read, `none` standing for `undefined`/`NaN` (indistinguishable under every
operation the source performs on them: relational operators return `false`,
`=== Infinity` returns `false`, and addition propagates). -/

/-- A JS number as used by the algorithms: finite (rational) or `Infinity`. -/
inductive XRat where
  | inf : XRat
  | fin : ℚ → XRat
  deriving DecidableEq

/-- JS `+` on non-NaN numbers (no `-Infinity` occurs in the source). -/
def XRat.add : XRat → XRat → XRat
  | .inf, _ => .inf
  | .fin _, .inf => .inf
  | .fin a, .fin b => .fin (a + b)

/-- JS `<` on non-NaN numbers. -/
def XRat.blt : XRat → XRat → Bool
  | .inf, _ => false
  | .fin _, .inf => true
  | .fin a, .fin b => decide (a < b)

/-- JS `x + w` where `x` is a map read (`undefined + w` is `NaN`). -/
def jadd (x : Option XRat) (w : ℚ) : Option XRat :=
  x.map (fun v => v.add (.fin w))

/-- JS `x < y` on map reads (`false` whenever either side is
`undefined`/`NaN`). -/
def jlt (x y : Option XRat) : Bool :=
  match x, y with
  | some a, some b => a.blt b
  | _, _ => false

/-- JS `x >= y` on map reads (`false` whenever either side is
`undefined`/`NaN`; on numbers `x >= y` is `¬(x < y)`). -/
def jge (x y : Option XRat) : Bool :=
  match x, y with
  | some a, some b => !(a.blt b)
  | _, _ => false

/-- JS `x === Infinity` on a map read. -/
def jIsInf (x : Option XRat) : Bool :=
  match x with
  | some .inf => true
  | _ => false

/-- Pointwise update of a string-keyed map modelled as a function. -/
def updMap {α : Type} (m : String → α) (k : String) (v : α) : String → α :=
  fun c => if c = k then v else m c

/-! ## Graph data model (src/server/services/graph.ts) -/

/-- `Airport` as the core consumes it: its `code` plus the coordinates used
by the A* heuristic (display name/city/country are irrelevant to the core). -/
structure Airport where
  code : String
  lat : ℚ
  lon : ℚ
  deriving DecidableEq

/-- `RouteEdge` from the shared schema: a stored connection record. -/
structure RouteEdge where
  src : String      -- `from` in the source (Lean keyword)
  dst : String      -- `to` in the source
  distanceKm : ℚ
  active : Bool
  deriving DecidableEq

/-- `GraphEdge`: a directed edge of the adjacency structure. -/
structure GraphEdge where
  src : String      -- `from` in the source
  dst : String      -- `to` in the source
  distance : ℚ
  deriving DecidableEq

/-- One entry of `RouteResult.segments`. -/
structure Segment where
  src : String      -- `from` in the source
  dst : String      -- `to` in the source
  distanceKm : ℚ
  deriving DecidableEq

/-- `RouteResult`. -/
structure RouteResult where
  path : List String
  segments : List Segment
  totalDistance : ℚ
  deriving DecidableEq

/-- The key set of the `nodes`/`edges` maps, in JS `Map` iteration order
(first-insertion order, duplicates keep their first position). -/
def nodeCodes (airports : List Airport) : List String :=
  airports.foldl (fun acc a => if a.code ∈ acc then acc else acc ++ [a.code]) []

/-- `nodes.get(code)`: the value of the last `set` for that key. -/
def nodesGet (airports : List Airport) (code : String) : Option Airport :=
  airports.reverse.find? (fun a => a.code == code)

/-- Constructor processing of one stored route: every registered code starts
with `[]`; each active route appends its forward edge to `from`'s list and
its reverse edge to `to`'s list, each only when that key is registered
(`this.edges.get(...)?.push(...)` is a no-op on an absent key). -/
def graphAdjStep (keys : List String) (adj : String → List GraphEdge)
    (route : RouteEdge) : String → List GraphEdge :=
  if route.active then
    let adj1 := if route.src ∈ keys then
        updMap adj route.src (adj route.src ++ [⟨route.src, route.dst, route.distanceKm⟩])
      else adj
    let adj2 := if route.dst ∈ keys then
        updMap adj1 route.dst (adj1 route.dst ++ [⟨route.dst, route.src, route.distanceKm⟩])
      else adj1
    adj2
  else adj

/-- The `edges` map after the constructor ran: the fold of `graphAdjStep`
over the stored routes, starting from the all-`[]` map. -/
def graphAdj (airports : List Airport) (routes : List RouteEdge) :
    String → List GraphEdge :=
  routes.foldl (graphAdjStep (nodeCodes airports)) (fun _ => [])

/-- The ephemeral `Graph` object: registered codes (in insertion order), the
node map and the adjacency map. -/
structure Graph where
  codes : List String
  getNode : String → Option Airport
  adj : String → List GraphEdge

/-- `new Graph(airports, routes)`. -/
def Graph.build (airports : List Airport) (routes : List RouteEdge) : Graph :=
  ⟨nodeCodes airports, nodesGet airports, graphAdj airports routes⟩

/-- `getEdges(code)`: `this.edges.get(code) || []` — `graphAdj` already
returns `[]` for unregistered codes. -/
def Graph.getEdges (g : Graph) (code : String) : List GraphEdge :=
  g.adj code

/-! ## Route-result builder -/

/-- The backward walk of `buildRouteResult`:
`while (current !== null) { path.unshift(current); current = previous.get(current) || null }`.
`prev c = none` covers both a `null` entry and an absent key (the source
collapses them with `|| null`).  The walk is fuelled; the source loops
until `null`, and every predecessor chain the algorithms build is acyclic,
so fuel `codes.length + 1` is never exhausted on states they produce. -/
def walkPrev (prev : String → Option String) : Nat → String → List String
  | 0, c => [c]
  | fuel + 1, c =>
    match prev c with
    | none => [c]
    | some p => walkPrev prev fuel p ++ [c]

/-- One segment of the pairwise walk: look up the first matching directed
edge (`getEdges(from).find(e => e.to === to)`); `edge?.distance || 0`. -/
def segFor (g : Graph) (a b : String) : Segment :=
  match (g.getEdges a).find? (fun e => e.dst == b) with
  | some e => ⟨a, b, e.distance⟩
  | none => ⟨a, b, 0⟩

/-- The pairwise segment walk shared by `buildRouteResult` and the inline
copy in `floydWarshall`. -/
def buildSegments (g : Graph) (path : List String) : List Segment :=
  (path.zip path.tail).map (fun p => segFor g p.1 p.2)

/-- `buildRouteResult(start, end, previous, distances)`.  The `start`
argument is unused by the source body (the walk starts from `end`). -/
def buildRouteResult (g : Graph) (start end_ : String)
    (prev : String → Option String) (dist : String → Option XRat) :
    Option RouteResult :=
  if jIsInf (dist end_) then none
  else
    let path := walkPrev prev (g.codes.length + 1) end_
    let segs := buildSegments g path
    some ⟨path, segs, (segs.map (fun s => s.distanceKm)).sum⟩

/-! ## Dijkstra -/

/-- The frontier scan `unvisited.forEach(...)` selecting the first node with
strictly smaller tentative distance (`dist < minDistance`, `undefined`
reads never compare true). -/
def scanMin (dist : String → Option XRat) (nodes : List String) :
    Option String × XRat :=
  nodes.foldl (fun acc node =>
    match dist node with
    | some v => if v.blt acc.2 then (some node, v) else acc
    | none => acc)
    (none, .inf)

/-- Mutable state of `dijkstra`. -/
structure DState where
  dist : String → Option XRat
  prev : String → Option String
  unvisited : List String

/-- The edge relaxation of one Dijkstra iteration. -/
def dijkstraRelax (current : String) (st : DState) (edges : List GraphEdge) :
    DState :=
  edges.foldl (fun st e =>
    if e.dst ∈ st.unvisited then
      let alt := jadd (st.dist current) e.distance
      if jlt alt (st.dist e.dst) then
        { st with dist := updMap st.dist e.dst alt,
                  prev := updMap st.prev e.dst (some current) }
      else st
    else st) st

/-- The fuelled main loop of `dijkstra`.  Every non-breaking iteration
removes `current` from `unvisited`, so fuel `|unvisited| + 1` is never
exhausted. -/
def dijkstraLoop (g : Graph) (end_ : String) : Nat → DState → DState
  | 0, st => st
  | fuel + 1, st =>
    if st.unvisited.isEmpty then st
    else
      match scanMin st.dist st.unvisited with
      | (none, _) => st
      | (some current, minDistance) =>
        if minDistance = .inf then st
        else if current = end_ then st
        else
          let st := { st with unvisited := st.unvisited.erase current }
          dijkstraLoop g end_ fuel (dijkstraRelax current st (g.getEdges current))

/-- `Graph.dijkstra(start, end)`. -/
def Graph.dijkstra (g : Graph) (start end_ : String) : Option RouteResult :=
  let dist0 : String → Option XRat :=
    updMap (fun c => if c ∈ g.codes then some .inf else none) start (some (.fin 0))
  let st := dijkstraLoop g end_ (g.codes.length + 1)
    ⟨dist0, fun _ => none, g.codes⟩
  buildRouteResult g start end_ st.prev st.dist

/-! ## Bellman-Ford -/

/-- One relaxation pass over the full edge list.  A read of an absent key on
either side makes the JS comparison false (`NaN < x`, `x < undefined`), so
the update is guarded by `jlt`. -/
def bfPass (edges : List GraphEdge)
    (st : (String → Option XRat) × (String → Option String)) :
    (String → Option XRat) × (String → Option String) :=
  edges.foldl (fun st e =>
    let alt := jadd (st.1 e.src) e.distance
    if jlt alt (st.1 e.dst) then
      (updMap st.1 e.dst alt, updMap st.2 e.dst (some e.src))
    else st) st

/-- `Graph.bellmanFord(start, end)`: `V - 1` passes over
`allEdges` (the adjacency lists concatenated in key order). -/
def Graph.bellmanFord (g : Graph) (start end_ : String) : Option RouteResult :=
  let dist0 : String → Option XRat :=
    updMap (fun c => if c ∈ g.codes then some .inf else none) start (some (.fin 0))
  let allEdges := g.codes.flatMap g.adj
  let v := g.codes.length
  let st := (List.range (v - 1)).foldl (fun st _ => bfPass allEdges st)
    (dist0, fun _ => none)
  if jIsInf (st.1 end_) then none
  else buildRouteResult g start end_ st.2 st.1

/-! ## A*

`haversineKm` (transcendental floating point) is passed in as the parameter
`hKm : Airport → Airport → ℚ`; the algorithms only ever feed its result into
additions and comparisons.  A `TypeError` (the non-null assertion
`this.getNode(edge.to)!` dereferenced when `edge.to` is unregistered) is
modelled as `Except.error ()`. -/

/-- Mutable state of `astar`. -/
structure AState where
  gScore : String → Option XRat
  fScore : String → Option XRat
  prev : String → Option String
  openL : List String
  closed : List String

/-- The edge relaxation of one A* iteration, faithful to statement order:
the open-set insertion and the `previous`/`gScore` writes happen before the
`this.getNode(edge.to)!` dereference that throws on an unregistered code. -/
def astarRelax (hKm : Airport → Airport → ℚ) (g : Graph) (endA : Airport)
    (current : String) : AState → List GraphEdge → Except Unit AState
  | st, [] => .ok st
  | st, e :: rest =>
    if e.dst ∈ st.closed then astarRelax hKm g endA current st rest
    else
      let tG := jadd (st.gScore current) e.distance
      let inOpen := e.dst ∈ st.openL
      let st1 := if inOpen then st else { st with openL := st.openL ++ [e.dst] }
      if inOpen && jge tG (st1.gScore e.dst) then
        astarRelax hKm g endA current st1 rest
      else
        let st2 := { st1 with prev := updMap st1.prev e.dst (some current),
                              gScore := updMap st1.gScore e.dst tG }
        match g.getNode e.dst with
        | none => .error ()
        | some neighbor =>
          let heuristic := hKm neighbor endA
          let st3 := { st2 with fScore := updMap st2.fScore e.dst (jadd tG heuristic) }
          astarRelax hKm g endA current st3 rest

/-- The fuelled main loop of `astar`.  Each iteration moves `current` from
the open to the closed set and closed nodes are never re-opened, so fuel
`codes.length + 1` is never exhausted (an unregistered code entering the open
set throws in the same iteration). -/
def astarLoop (hKm : Airport → Airport → ℚ) (g : Graph) (endA : Airport)
    (end_ : String) : Nat → AState → Except Unit AState
  | 0, st => .ok st
  | fuel + 1, st =>
    if st.openL.isEmpty then .ok st
    else
      match scanMin st.fScore st.openL with
      | (none, _) => .ok st
      | (some current, _) =>
        if current = end_ then .ok st
        else
          let st := { st with openL := st.openL.erase current,
                              closed := st.closed ++ [current] }
          match astarRelax hKm g endA current st (g.getEdges current) with
          | .error e => .error e
          | .ok st' => astarLoop hKm g endA end_ fuel st'

/-- `Graph.astar(start, end)` with the haversine heuristic as parameter. -/
def Graph.astar (g : Graph) (hKm : Airport → Airport → ℚ)
    (start end_ : String) : Except Unit (Option RouteResult) :=
  match g.getNode start, g.getNode end_ with
  | some startNode, some endNode =>
    let g0 : String → Option XRat :=
      updMap (fun c => if c ∈ g.codes then some .inf else none) start (some (.fin 0))
    let f0 : String → Option XRat :=
      updMap (fun c => if c ∈ g.codes then some .inf else none) start
        (some (.fin (hKm startNode endNode)))
    match astarLoop hKm g endNode end_ (g.codes.length + 1)
        ⟨g0, f0, fun _ => none, [start], []⟩ with
    | .error e => .error e
    | .ok st => .ok (buildRouteResult g start end_ st.prev st.gScore)
  | _, _ => .ok none

/-! ## Floyd-Warshall

The matrices are indexed by positions in `codes`.  An edge whose target is
unregistered performs `dist[i][undefined] = e.distance; next[i][undefined] = e.to`
in JS — a stray `"undefined"` property on row `i`, invisible to the numeric
triple loop; only the `next` one is ever read back (when the queried
destination is itself unregistered, `tIdx` is `undefined`), so it is kept as
`nextU`.  `indexMap.get(start)!` with an unregistered start throws at
`dist[undefined][tIdx]`, modelled as `Except.error ()`. -/

/-- Matrix state of `floydWarshall`: numeric `dist` and `next` entries plus
the per-row stray `"undefined"` property of `next`. -/
structure FWState where
  dist : Nat → Nat → XRat
  next : Nat → Nat → Option String
  nextU : Nat → Option String

/-- Initialise the matrices from the adjacency lists, in key order. -/
def fwInit (g : Graph) : FWState :=
  let idx := fun c => g.codes.findIdx? (fun k => k == c)
  let base : FWState :=
    ⟨fun i j => if i = j then .fin 0 else .inf, fun _ _ => none, fun _ => none⟩
  (g.codes.enum.foldl (fun st p =>
    let i := p.1
    let u := p.2
    (g.adj u).foldl (fun st e =>
      match idx e.dst with
      | some j =>
        { st with
          dist := fun i' j' => if i' = i ∧ j' = j then .fin e.distance else st.dist i' j',
          next := fun i' j' => if i' = i ∧ j' = j then some e.dst else st.next i' j' }
      | none =>
        { st with nextU := fun i' => if i' = i then some e.dst else st.nextU i' }) st)
    base)

/-- The standard triple loop over `k`, `i`, `j`. -/
def fwTriple (n : Nat) (st : FWState) : FWState :=
  (List.range n).foldl (fun st k =>
    (List.range n).foldl (fun st i =>
      (List.range n).foldl (fun st j =>
        if ((st.dist i k).add (st.dist k j)).blt (st.dist i j) then
          { st with
            dist := fun i' j' => if i' = i ∧ j' = j then (st.dist i k).add (st.dist k j)
                                 else st.dist i' j',
            next := fun i' j' => if i' = i ∧ j' = j then st.next i k else st.next i' j' }
        else st) st) st) st

/-- The reconstruction walk
`while (u !== end) { u = next[indexMap.get(u)!][tIdx]!; if (!u) break; path.push(u) }`.
When `tIdx` is `undefined` the read is the stray `"undefined"` property
(`nextU`); when `u` itself is unregistered, `next[undefined]` is `undefined`
and the subsequent index access throws. -/
def fwWalk (g : Graph) (st : FWState) (tIdx : Option Nat) (end_ : String) :
    Nat → String → List String → Except Unit (List String)
  | 0, _, path => .ok path
  | fuel + 1, u, path =>
    if u = end_ then .ok path
    else
      match g.codes.findIdx? (fun k => k == u) with
      | none => .error ()
      | some i =>
        match (match tIdx with | some t => st.next i t | none => st.nextU i) with
        | none => .ok path
        | some v => fwWalk g st tIdx end_ fuel v (path ++ [v])

/-- `Graph.floydWarshall(start, end)`. -/
def Graph.floydWarshall (g : Graph) (start end_ : String) :
    Except Unit (Option RouteResult) :=
  let n := g.codes.length
  let st := fwTriple n (fwInit g)
  match g.codes.findIdx? (fun k => k == start) with
  | none => .error ()   -- dist[undefined][tIdx] throws
  | some sIdx =>
    let tIdx := g.codes.findIdx? (fun k => k == end_)
    -- `dist[sIdx][tIdx] === Infinity`: with tIdx undefined the read is the
    -- stray (finite or undefined) property, never `Infinity`.
    let isInf : Bool := match tIdx with
      | some t => st.dist sIdx t = XRat.inf
      | none => false
    if isInf then .ok none
    else
      match fwWalk g st tIdx end_ (n + 2) start [start] with
      | .error e => .error e
      | .ok path =>
        let segs := buildSegments g path
        .ok (some ⟨path, segs, (segs.map (fun s => s.distanceKm)).sum⟩)

/-! ## Exposed wrapper -/

/-- `computeRoute(airports, routes, from, to, algorithm)`: builds the graph
and dispatches on the algorithm name; an unrecognised name reaches the
`default` arm and yields `null`.  The two algorithms that never throw are
wrapped in `.ok`. -/
def computeRoute (airports : List Airport) (routes : List RouteEdge)
    (hKm : Airport → Airport → ℚ) (src dst : String) (algorithm : String) :
    Except Unit (Option RouteResult) :=
  let graph := Graph.build airports routes
  if algorithm = "dijkstra" then .ok (graph.dijkstra src dst)
  else if algorithm = "astar" then graph.astar hKm src dst
  else if algorithm = "bellmanford" then .ok (graph.bellmanFord src dst)
  else if algorithm = "floydwarshall" then graph.floydWarshall src dst
  else .ok none

/-! ## Helper lemmas -/

/-- `roundToNearest10` is monotone. -/
theorem roundToNearest10_mono {a b : ℚ} (h : a ≤ b) :
    roundToNearest10 a ≤ roundToNearest10 b := by
  unfold roundToNearest10
  have hf : (⌊a / 10 + 1/2⌋ : ℤ) ≤ ⌊b / 10 + 1/2⌋ := Int.floor_mono (by linarith)
  have hq : ((⌊a / 10 + 1/2⌋ : ℤ) : ℚ) ≤ ((⌊b / 10 + 1/2⌋ : ℤ) : ℚ) := by
    exact_mod_cast hf
  linarith

/-- One constructor step leaves the adjacency list of an unregistered code
untouched: both pushes are guarded by key membership. -/
theorem graphAdjStep_unregistered (keys : List String)
    (adj : String → List GraphEdge) (r : RouteEdge) (c : String)
    (hc : c ∉ keys) : graphAdjStep keys adj r c = adj c := by
  unfold graphAdjStep updMap
  by_cases hact : r.active
  · by_cases hsrc : r.src ∈ keys <;> by_cases hdst : r.dst ∈ keys
    · have h1 : ¬ (c = r.src) := fun e => hc (e ▸ hsrc)
      have h2 : ¬ (c = r.dst) := fun e => hc (e ▸ hdst)
      simp [hact, hsrc, hdst, h1, h2]
    · have h1 : ¬ (c = r.src) := fun e => hc (e ▸ hsrc)
      simp [hact, hsrc, hdst, h1]
    · have h2 : ¬ (c = r.dst) := fun e => hc (e ▸ hdst)
      simp [hact, hsrc, hdst, h2]
    · simp [hact, hsrc, hdst]
  · simp [hact]

/-! ## Claim theorems -/

/-- C4: for every path, distance, passenger count, config and demand draw,
`generatePriceQuote` returns exactly three offers in Saver, Standard, Flex
order, all sharing one identical `FareBreakdown`, with
`base = config.baseFare`,
`fuelCost = totalDistanceKm * defaultBurnLPerKm * fuelPricePerLitre`,
`ops = feeRate * (base + fuelCost)`,
`taxes = taxRate * (base + fuelCost + ops)`,
`corePrice = (base + fuelCost + ops + taxes) * d` for the drawn demand `d`,
and each offer's `totalFare = roundToNearest10 (corePrice * mult) * pax`
with multipliers 0.95, 1.00, 1.15. -/
theorem c4_quote_formula (path : List String) (totalDistanceKm pax : ℚ)
    (config : PriceConfig) (rand : ℚ) :
    generatePriceQuote path totalDistanceKm pax config rand =
      (let base := config.baseFare
       let fuelCost := totalDistanceKm * config.defaultBurnLPerKm * config.fuelPricePerLitre
       let ops := config.feeRate * (base + fuelCost)
       let taxes := config.taxRate * (base + fuelCost + ops)
       let d := calculateDemandFactor path rand
       let fb : FareBreakdown := ⟨base, fuelCost, ops, taxes, d⟩
       let corePrice := (base + fuelCost + ops + taxes) * d
       [⟨"Saver", fb, roundToNearest10 (corePrice * (95/100)) * pax, "INR"⟩,
        ⟨"Standard", fb, roundToNearest10 (corePrice * 1) * pax, "INR"⟩,
        ⟨"Flex", fb, roundToNearest10 (corePrice * (115/100)) * pax, "INR"⟩]) := by
  rfl

/-- C5, counterexample: with `baseFare = 10`, all other config fields `0`,
distance `0`, one passenger and demand draw `1/4`, the core price is the
positive value `10`, yet the Saver and Standard fares are both `10`
(rounding to the nearest 10 collapses them), so the claimed strict ordering
Saver < Standard fails. -/
theorem c5_counterexample :
    0 < corePriceOf [] 0 ⟨0, 0, 0, 0, 10⟩ (1/4) ∧
    ¬ (((generatePriceQuote [] 0 1 ⟨0, 0, 0, 0, 10⟩ (1/4)).map
          (fun o => o.totalFare)).getD 0 0 <
        ((generatePriceQuote [] 0 1 ⟨0, 0, 0, 0, 10⟩ (1/4)).map
          (fun o => o.totalFare)).getD 1 0) :=
  of_decide_eq_true (by with_unfolding_all rfl)

/-- C5, amended: for every positive core price and passenger count `≥ 1`,
the three offers are ordered non-strictly:
Saver `≤` Standard `≤` Flex (strictness can fail because
`roundToNearest10` can collapse adjacent class prices). -/
theorem c5_fares_ordered (path : List String) (totalDistanceKm pax : ℚ)
    (config : PriceConfig) (rand : ℚ)
    (hpax : 1 ≤ pax)
    (hcore : 0 < corePriceOf path totalDistanceKm config rand) :
    (((generatePriceQuote path totalDistanceKm pax config rand).map
        (fun o => o.totalFare)).getD 0 0 ≤
      ((generatePriceQuote path totalDistanceKm pax config rand).map
        (fun o => o.totalFare)).getD 1 0) ∧
    (((generatePriceQuote path totalDistanceKm pax config rand).map
        (fun o => o.totalFare)).getD 1 0 ≤
      ((generatePriceQuote path totalDistanceKm pax config rand).map
        (fun o => o.totalFare)).getD 2 0) := by
  have hpax0 : (0:ℚ) ≤ pax := le_trans zero_le_one hpax
  set c := corePriceOf path totalDistanceKm config rand with hc
  have h1 : roundToNearest10 (c * (95/100)) ≤ roundToNearest10 (c * 1) :=
    roundToNearest10_mono (by nlinarith)
  have h2 : roundToNearest10 (c * 1) ≤ roundToNearest10 (c * (115/100)) :=
    roundToNearest10_mono (by nlinarith)
  simp only [generatePriceQuote, fareClasses, List.map_cons, List.map_nil,
    List.getD, List.get?, ← hc]
  exact ⟨mul_le_mul_of_nonneg_right h1 hpax0, mul_le_mul_of_nonneg_right h2 hpax0⟩

/-- C5, witness for the amended theorem at path `[]`, distance `0`, one
passenger, `baseFare = 100` and demand draw `0`. -/
theorem c5_fares_ordered_witness :
    (1:ℚ) ≤ 1 ∧ 0 < corePriceOf [] 0 ⟨0, 0, 0, 0, 100⟩ 0 ∧
    ((((generatePriceQuote [] 0 1 ⟨0, 0, 0, 0, 100⟩ 0).map
        (fun o => o.totalFare)).getD 0 0 ≤
      ((generatePriceQuote [] 0 1 ⟨0, 0, 0, 0, 100⟩ 0).map
        (fun o => o.totalFare)).getD 1 0) ∧
     (((generatePriceQuote [] 0 1 ⟨0, 0, 0, 0, 100⟩ 0).map
        (fun o => o.totalFare)).getD 1 0 ≤
      ((generatePriceQuote [] 0 1 ⟨0, 0, 0, 0, 100⟩ 0).map
        (fun o => o.totalFare)).getD 2 0)) :=
  ⟨le_refl 1, of_decide_eq_true (by with_unfolding_all rfl),
   c5_fares_ordered [] 0 1 ⟨0, 0, 0, 0, 100⟩ 0 (le_refl 1)
     (of_decide_eq_true (by with_unfolding_all rfl))⟩

/-- C6: for every path and every demand draw in `[0, 1)`, the demand factor
equals `clamp (b * (0.9 + 0.4 * rand)) 0.9 1.5` with `b = 1.2` exactly when
the dash-joined path is one of the four popular routes (`b = 1` otherwise),
and it always lies within `[0.9, 1.5]`. -/
theorem c6_demand_factor (path : List String) (rand : ℚ)
    (h0 : 0 ≤ rand) (h1 : rand < 1) :
    (calculateDemandFactor path rand =
      clamp ((if String.intercalate "-" path ∈ popularRoutes then (12:ℚ)/10 else 1) *
        (9/10 + 4/10 * rand)) (9/10) (15/10)) ∧
    9/10 ≤ calculateDemandFactor path rand ∧
    calculateDemandFactor path rand ≤ 15/10 := by
  refine ⟨?_, ?_, ?_⟩
  · unfold calculateDemandFactor
    ring_nf
  · unfold calculateDemandFactor clamp
    exact le_min (le_max_right _ _) (by norm_num)
  · unfold calculateDemandFactor clamp
    exact min_le_right _ _

/-- C8, counterexample: with airports `AAA`, `BBB` and both directions stored
explicitly as active connections of weight 7, the adjacency list of `AAA`
holds two identical parallel `AAA→BBB` edges — not exactly one as claimed. -/
theorem c8_counterexample :
    ((graphAdj [⟨"AAA", 0, 0⟩, ⟨"BBB", 0, 0⟩]
        [⟨"AAA", "BBB", 7, true⟩, ⟨"BBB", "AAA", 7, true⟩]) "AAA" =
      [⟨"AAA", "BBB", 7⟩, ⟨"AAA", "BBB", 7⟩]) ∧
    ¬ (((graphAdj [⟨"AAA", 0, 0⟩, ⟨"BBB", 0, 0⟩]
        [⟨"AAA", "BBB", 7, true⟩, ⟨"BBB", "AAA", 7, true⟩]) "AAA").length = 1) :=
  of_decide_eq_true (by with_unfolding_all rfl)

/-- C8, amended: graph construction expands every active connection into
both directions unconditionally, so when the input stores both directions
explicitly (active `A→B` and `B→A` with the same weight, `A ≠ B`, both
registered) the adjacency structure holds exactly two identical parallel
directed edges for each of the ordered pairs `(A,B)` and `(B,A)`. -/
theorem c8_double_add (airports : List Airport) (a b : String) (w : ℚ)
    (ha : a ∈ nodeCodes airports) (hb : b ∈ nodeCodes airports) (hab : a ≠ b) :
    graphAdj airports [⟨a, b, w, true⟩, ⟨b, a, w, true⟩] a =
      [⟨a, b, w⟩, ⟨a, b, w⟩] ∧
    graphAdj airports [⟨a, b, w, true⟩, ⟨b, a, w, true⟩] b =
      [⟨b, a, w⟩, ⟨b, a, w⟩] := by
  have hba : b ≠ a := hab.symm
  simp [graphAdj, graphAdjStep, updMap, ha, hb, hab, hba]

/-- C8, witness for the amended theorem at the two-airport input. -/
theorem c8_double_add_witness :
    ("AAA" ∈ nodeCodes [⟨"AAA", (0:ℚ), 0⟩, ⟨"BBB", 0, 0⟩]) ∧
    ("BBB" ∈ nodeCodes [⟨"AAA", (0:ℚ), 0⟩, ⟨"BBB", 0, 0⟩]) ∧
    ("AAA" ≠ "BBB") ∧
    (graphAdj [⟨"AAA", 0, 0⟩, ⟨"BBB", 0, 0⟩]
        [⟨"AAA", "BBB", 7, true⟩, ⟨"BBB", "AAA", 7, true⟩] "AAA" =
      [⟨"AAA", "BBB", 7⟩, ⟨"AAA", "BBB", 7⟩] ∧
     graphAdj [⟨"AAA", 0, 0⟩, ⟨"BBB", 0, 0⟩]
        [⟨"AAA", "BBB", 7, true⟩, ⟨"BBB", "AAA", 7, true⟩] "BBB" =
      [⟨"BBB", "AAA", 7⟩, ⟨"BBB", "AAA", 7⟩]) :=
  ⟨by decide, by decide, by decide,
   c8_double_add [⟨"AAA", 0, 0⟩, ⟨"BBB", 0, 0⟩] "AAA" "BBB" 7
     (by decide) (by decide) (by decide)⟩

/-- C9: graph construction is total and never invents nodes — an adjacency
list exists (is non-empty) only for registered airport codes, so an active
connection whose `from` code is unknown contributes no forward edge and one
whose `to` code is unknown contributes no reverse edge; yet the forward edge
of a registered `from` may still point at an unregistered `to` code, as the
concrete dangling-edge instance in the second conjunct shows. -/
theorem c9_edges_only_registered :
    (∀ (airports : List Airport) (routes : List RouteEdge) (c : String),
      c ∉ nodeCodes airports → graphAdj airports routes c = []) ∧
    graphAdj [⟨"AAA", 0, 0⟩] [⟨"AAA", "ZZZ", 5, true⟩] "AAA" =
      [⟨"AAA", "ZZZ", 5⟩] := by
  constructor
  · intro airports routes c hc
    unfold graphAdj
    have h : ∀ (rs : List RouteEdge) (adj : String → List GraphEdge),
        adj c = [] → (rs.foldl (graphAdjStep (nodeCodes airports)) adj) c = [] := by
      intro rs
      induction rs with
      | nil => intro adj h; exact h
      | cons r rs ih =>
        intro adj h
        simp only [List.foldl_cons]
        exact ih _ ((graphAdjStep_unregistered _ _ r _ hc).trans h)
    exact h routes _ rfl
  · decide

/-- C9, witness: the universally quantified part applied to an unregistered
code. -/
theorem c9_edges_only_registered_witness :
    ("ZZZ" ∉ nodeCodes [⟨"AAA", (0:ℚ), 0⟩]) ∧
    graphAdj [⟨"AAA", 0, 0⟩] [⟨"AAA", "BBB", 5, true⟩] "ZZZ" = [] :=
  ⟨by decide, c9_edges_only_registered.1 _ _ _ (by decide)⟩

/-- C10: `computeRoute` called with an algorithm name other than the four
recognised ones returns the absent result (`null`) without running any
algorithm and without a thrown failure. -/
theorem c10_unknown_algorithm (airports : List Airport)
    (routes : List RouteEdge) (hKm : Airport → Airport → ℚ)
    (src dst alg : String)
    (h1 : alg ≠ "dijkstra") (h2 : alg ≠ "astar")
    (h3 : alg ≠ "bellmanford") (h4 : alg ≠ "floydwarshall") :
    computeRoute airports routes hKm src dst alg = .ok none := by
  simp [computeRoute, h1, h2, h3, h4]

/-- C10, witness at the unrecognised algorithm name `"bfs"`. -/
theorem c10_unknown_algorithm_witness :
    ("bfs" ≠ "dijkstra") ∧ ("bfs" ≠ "astar") ∧ ("bfs" ≠ "bellmanford") ∧
    ("bfs" ≠ "floydwarshall") ∧
    computeRoute [] [] (fun _ _ => 0) "AAA" "BBB" "bfs" = .ok none :=
  ⟨by decide, by decide, by decide, by decide,
   c10_unknown_algorithm [] [] (fun _ _ => 0) "AAA" "BBB" "bfs"
     (by decide) (by decide) (by decide) (by decide)⟩

/-- C1: the claim that every algorithm returns the absent result when an
endpoint code is unknown is violated by the code.  With the single airport
`AAA`, no connections, start `AAA` and unknown end `ZZZ`:
`distances.get(end)` is `undefined`, which is not `=== Infinity`, so
`dijkstra` and `bellmanFord` skip the no-route guard and fabricate the
result `{path: ["ZZZ"], segments: [], totalDistance: 0}`, and
`floydWarshall` (whose `tIdx` is `undefined`) fabricates
`{path: ["AAA"], segments: [], totalDistance: 0}`; only `astar` returns the
absent result. -/
theorem c1_unknown_endpoint_not_absent :
    (Graph.build [⟨"AAA", 0, 0⟩] []).dijkstra "AAA" "ZZZ" =
      some ⟨["ZZZ"], [], 0⟩ ∧
    (Graph.build [⟨"AAA", 0, 0⟩] []).bellmanFord "AAA" "ZZZ" =
      some ⟨["ZZZ"], [], 0⟩ ∧
    (Graph.build [⟨"AAA", 0, 0⟩] []).floydWarshall "AAA" "ZZZ" =
      .ok (some ⟨["AAA"], [], 0⟩) := by
  refine ⟨?_, ?_, ?_⟩ <;> with_unfolding_all rfl

/-- C2: the claim that no algorithm ever raises a thrown failure is violated
by the code.  `floydWarshall` with the unknown start `ZZZ` evaluates
`dist[indexMap.get(start)!][tIdx]` with an `undefined` row index and throws a
`TypeError`; `astar` relaxing the edge `AAA→ZZZ` whose target is not a
registered node dereferences `this.getNode(edge.to)!` (i.e. `undefined`) and
throws a `TypeError` — both modelled as `Except.error ()`, for every
heuristic function. -/
theorem c2_thrown_failures (hKm : Airport → Airport → ℚ) :
    (Graph.build [⟨"AAA", 0, 0⟩] []).floydWarshall "ZZZ" "AAA" = .error () ∧
    (Graph.build [⟨"AAA", 0, 0⟩, ⟨"BBB", 0, 0⟩]
        [⟨"AAA", "ZZZ", 5, true⟩]).astar hKm "AAA" "BBB" = .error () := by
  exact ⟨by with_unfolding_all rfl, by with_unfolding_all rfl⟩

/-- C2, witness (the statement binds only the heuristic function, which the
two thrown failures never evaluate): the theorem at the zero heuristic. -/
theorem c2_thrown_failures_witness :
    (Graph.build [⟨"AAA", 0, 0⟩] []).floydWarshall "ZZZ" "AAA" = .error () ∧
    (Graph.build [⟨"AAA", 0, 0⟩, ⟨"BBB", 0, 0⟩]
        [⟨"AAA", "ZZZ", 5, true⟩]).astar (fun _ _ => 0) "AAA" "BBB" =
      .error () :=
  c2_thrown_failures (fun _ _ => 0)

/-- C3: the claim that `dijkstra` and `astar` fail exactly together (and
agree on `totalDistance`) is violated by the code.  With airports `[AAA]`,
no connections, start `AAA` and unknown end `ZZZ`, `astar` returns the
absent result (its explicit endpoint guard) while `dijkstra` returns the
fabricated non-absent result `{path: ["ZZZ"], segments: [],
totalDistance: 0}` — for every heuristic function, in particular the
haversine one. -/
theorem c3_dijkstra_astar_disagree (hKm : Airport → Airport → ℚ) :
    (Graph.build [⟨"AAA", 0, 0⟩] []).dijkstra "AAA" "ZZZ" =
      some ⟨["ZZZ"], [], 0⟩ ∧
    (Graph.build [⟨"AAA", 0, 0⟩] []).astar hKm "AAA" "ZZZ" = .ok none := by
  exact ⟨by with_unfolding_all rfl, by with_unfolding_all rfl⟩

/-- C3, witness (the statement binds only the heuristic function, which the
guard short-circuits): the theorem at the zero heuristic. -/
theorem c3_dijkstra_astar_disagree_witness :
    (Graph.build [⟨"AAA", 0, 0⟩] []).dijkstra "AAA" "ZZZ" =
      some ⟨["ZZZ"], [], 0⟩ ∧
    (Graph.build [⟨"AAA", 0, 0⟩] []).astar (fun _ _ => 0) "AAA" "ZZZ" =
      .ok none :=
  c3_dijkstra_astar_disagree (fun _ _ => 0)

/-- C7: the claim `path[0] = start` for every successful result is violated
by the code.  At the C1 failing input, `dijkstra` returns the successful
result `{path: ["ZZZ"], segments: [], totalDistance: 0}` whose first path
element is the (unknown) end code `ZZZ`, not the start `AAA`. -/
theorem c7_path_head_not_start :
    (Graph.build [⟨"AAA", 0, 0⟩] []).dijkstra "AAA" "ZZZ" =
      some ⟨["ZZZ"], [], 0⟩ ∧
    (["ZZZ"].headD "" = "AAA" → False) := by
  exact ⟨by with_unfolding_all rfl, by decide⟩

/-- C6, witness at the popular route `DEL-BOM` with draw `1/2`. -/
theorem c6_demand_factor_witness :
    (0:ℚ) ≤ 1/2 ∧ (1/2:ℚ) < 1 ∧
    ((calculateDemandFactor ["DEL", "BOM"] (1/2) =
      clamp ((if String.intercalate "-" ["DEL", "BOM"] ∈ popularRoutes then (12:ℚ)/10 else 1) *
        (9/10 + 4/10 * (1/2))) (9/10) (15/10)) ∧
     9/10 ≤ calculateDemandFactor ["DEL", "BOM"] (1/2) ∧
     calculateDemandFactor ["DEL", "BOM"] (1/2) ≤ 15/10) :=
  ⟨by norm_num, by norm_num,
   c6_demand_factor ["DEL", "BOM"] (1/2) (by norm_num) (by norm_num)⟩
